import Mathlib

/-!
Verification development for the `mcp-server-synology` repository.

The Python modules `src/filestation/synology_filestation.py`,
`src/iscsi/synology_iscsi.py`, `src/downloadstation/synology_downloadstation.py`
and `src/mcp_server.py` are shallowly embedded below.  The network backend is
abstracted as an oracle (a "world") that assigns a response envelope to each
request the code can issue; every operation returns its result together with
the ordered trace of backend calls it issued, so that claims about which
requests are (or are not) sent can be stated precisely.

Strings are manipulated through their underlying character lists, mirroring
Python string operations character by character.
-/

set_option autoImplicit false

/-! ## Basic string helpers (Python string operations) -/

/-- Character-list version of Python `s.startswith(c)`: the first list is a
leading segment of the second. -/
def leadsWith : List Char → List Char → Bool
  | [], _ => true
  | _ :: _, [] => false
  | a :: s, b :: t => a == b && leadsWith s t

/-- Python `sub in s` on character lists: `sub` occurs contiguously in `l`. -/
def hasSubList (sub : List Char) : List Char → Bool
  | [] => sub.isEmpty
  | a :: t => leadsWith sub (a :: t) || hasSubList sub t

/-- Python `sub in s` for strings. -/
def strContains (s sub : String) : Bool :=
  hasSubList sub.data s.data

/-- Python `s.startswith(c)` for strings. -/
def strStarts (s c : String) : Bool :=
  leadsWith c.data s.data

/-- Python `s.rstrip('/')` on a character list: remove every trailing slash. -/
def dropTrailingSlashList (l : List Char) : List Char :=
  (l.reverse.dropWhile (fun c => c == '/')).reverse

/-- Python `s.rstrip('/')` for strings. -/
def rstripSlash (s : String) : String :=
  String.mk (dropTrailingSlashList s.data)

/-- Python `s.startswith('/')`. -/
def startsSlash (s : String) : Bool :=
  s.data.head? == some '/' 

/-- Python `s.endswith('/')`. -/
def endsSlash (s : String) : Bool :=
  s.data.getLast? == some '/' 

/-- Python `os.path.basename` on a character list (POSIX: the part after the
last slash). -/
def baseNameList (l : List Char) : List Char :=
  (l.reverse.takeWhile (fun c => c != '/')).reverse

/-- Python `os.path.basename` for strings. -/
def baseName (s : String) : String :=
  String.mk (baseNameList s.data)

/-- The apostrophe character, used to rebuild quoted fragments of the Python
format strings. -/
def apoc : Char := '\''

/-- Wrap a string in single quotes, as the Python f-strings do. -/
def quoted (s : String) : String :=
  String.mk [apoc] ++ s ++ String.mk [apoc]

/-- Python `os.path.splitext(p)[1]` is nonempty iff the basename of `p`,
stripped of its leading dots, still contains a dot. -/
def hasExt (s : String) : Bool :=
  let b := baseNameList s.data
  (b.dropWhile (fun c => c == '.')).contains '.'

/-- POSIX `os.path.join(a, b)` for the case where `b` does not start with a
slash (the only case the source hits: `b` is always a basename). -/
def posixJoin (a b : String) : String :=
  if a = "" then b
  else if endsSlash a then a ++ b
  else a ++ "/" ++ b

/-! ## The Synology response envelope and `_make_request`

The envelope is `{success: bool, data?: object, error?: {code, errors?:
[{code, path?}]}}`.  `_make_request` in `synology_filestation.py` and
`synology_iscsi.py` differ only in the message head (`"Synology API error: "`
versus `"Synology iSCSI API error: "`); both are instances of
`synoMakeRequest`. -/

/-- One entry of the nested `errors` array of an error envelope. -/
structure ItemError where
  code : Option Nat
  path : Option String
  deriving DecidableEq, Repr

/-- The `error` object of a response envelope. -/
structure ApiError where
  code : Option Nat
  errors : Option (List ItemError)
  deriving DecidableEq, Repr

/-- A Synology response envelope carrying a `data` payload of type `α`. -/
structure Envelope (α : Type) where
  success : Bool
  data : Option α
  error : Option ApiError
  deriving DecidableEq, Repr

/-- Python `data.get('error', {}).get('code', 'unknown')` rendered as the
string interpolated into the message. -/
def errCodeStr : Option Nat → String
  | some n => toString n
  | none => "unknown"

/-- Detail string for one entry of the nested `errors` array:
`"Code {code}"` plus `" for path: {path}"` when a path is present. -/
def itemDetail (e : ItemError) : String :=
  "Code " ++ errCodeStr e.code ++
    (match e.path with
     | some p => " for path: " ++ p
     | none => "")

/-- Python `sep.join(l)`. -/
def joinSep (sep : String) : List String → String
  | [] => ""
  | [a] => a
  | a :: b :: t => a ++ sep ++ joinSep sep (b :: t)

/-- The joined details of the nested error list, in response order. -/
def detailsOf (l : List ItemError) : String :=
  joinSep "; " (l.map itemDetail)

/-- Message built by `_make_request` for a failed envelope: head and top-level
code, then the per-item details when the `errors` array is present and
nonempty. -/
def synoErrorMessage (head : String) (err : Option ApiError) : String :=
  let base := head ++ errCodeStr (err.bind ApiError.code)
  match err.bind ApiError.errors with
  | some l => if l.isEmpty then base else base ++ " - Details: " ++ detailsOf l
  | none => base

/-- Shared body of `SynologyFileStation._make_request` and
`SynologyISCSI._make_request` after the HTTP exchange: a failed envelope
raises the formatted message, a successful one yields `data` (defaulting to
`dflt`, Python `data.get('data', {})`). -/
def synoMakeRequest {α : Type} (head : String) (resp : Envelope α) (dflt : α) :
    Except String α :=
  if resp.success then .ok (resp.data.getD dflt)
  else .error (synoErrorMessage head resp.error)

/-- Message head used by `SynologyFileStation._make_request`. -/
def fsHead : String := "Synology API error: "

/-- Message head used by `SynologyISCSI._make_request`. -/
def iscsiHead : String := "Synology iSCSI API error: "

/-! ## `SynologyFileStation._format_path`

The source adds a leading slash when missing, strips trailing slashes unless
the path is exactly `"/"`, then applies `unicodedata.normalize('NFC', ·)`.
The Unicode NFC table cannot be embedded, so the normalizer is an explicit
parameter `nfc`; the properties of real NFC that the claims rely on
(idempotence, preservation of a leading slash, non-introduction of a trailing
slash, fixing `"/"`) appear as hypotheses where needed.  On ASCII strings NFC
is the identity, which `nfcAscii` instantiates. -/

/-- Embedding of `SynologyFileStation._format_path` with the Unicode NFC
normalization step abstracted as `nfc`. -/
def formatPath (nfc : String → String) (path : String) : String :=
  let p1 := if startsSlash path then path else String.mk ('/' :: path.data)
  let p2 := if p1 ≠ "/" ∧ endsSlash p1 then rstripSlash p1 else p1
  nfc p2

/-- NFC normalization restricted to ASCII strings: every ASCII string is
already composed, so the normalization is the identity there. -/
def nfcAscii : String → String := id

/-! ## FileStation operations (`synology_filestation.py`)

Each operation returns `result × trace`, where the trace lists the backend
requests issued, in order.  The backend is the oracle `FsWorld`: one envelope
per request shape (polling requests are indexed by the poll number). -/

/-- A backend request issued by the FileStation module, as recorded in
traces. -/
inductive FsCall where
  | getinfo (path : String)
  | searchStart (path : String) (pat : String)
  | searchList (taskid : String)
  | searchStop (taskid : String)
  | deleteStart (path : String)
  | deleteStatus (taskid : String)
  | deleteStop (taskid : String)
  | moveStart (src : String) (dest : String)
  | moveStatus (taskid : String)
  | moveStop (taskid : String)
  deriving DecidableEq, Repr

/-- One entry of a `files` array in a FileStation response. -/
structure FileEntry where
  name : String
  path : String
  isdir : Bool
  size : Nat
  deriving DecidableEq, Repr

/-- Payload of a `getinfo`/`list` response: `data.get('files', [])`. -/
structure GetInfoData where
  files : List FileEntry
  deriving DecidableEq, Repr

/-- Payload of a `start` response: `data.get('taskid')`. -/
structure TaskData where
  taskid : Option String
  deriving DecidableEq, Repr

/-- Payload of a `status` poll: `finished` flag (missing reads as falsy) and
the optional `error` entry of the status dict, rendered as the string the
source interpolates into its message. -/
structure StatusData where
  finished : Bool
  errorField : Option String
  deriving DecidableEq, Repr

/-- Payload of a search `list` poll: the `finished` flag and the `files`
array of the same response. -/
structure SearchListData where
  finished : Bool
  files : List FileEntry
  deriving DecidableEq, Repr

/-- Oracle for the FileStation backend.  `nfc` is the Unicode normalizer used
by `_format_path`; the remaining fields give the envelope answered to each
request, with polling requests indexed by poll number. -/
structure FsWorld where
  nfc : String → String
  getinfoEnv : String → Envelope GetInfoData
  searchStartEnv : String → String → Envelope TaskData
  searchListEnv : Nat → Envelope SearchListData
  searchStopEnv : Envelope Unit
  deleteStartEnv : String → Envelope TaskData
  deleteStatusEnv : Nat → Envelope StatusData
  deleteStopEnv : Envelope Unit
  moveStartEnv : String → String → Envelope TaskData
  moveStatusEnv : Nat → Envelope StatusData
  moveStopEnv : Envelope Unit

/-- Result record produced by a file item in `list`/`search`/`getinfo`
responses (the base fields; the optional `additional` enrichment is not used
by any claim-relevant code path). -/
structure ItemInfo where
  name : String
  path : String
  type : String
  size : Nat
  deriving DecidableEq, Repr

/-- Map a raw `files` entry to the result dict built by the source
(`'directory' if isdir else 'file'`). -/
def mapEntry (f : FileEntry) : ItemInfo :=
  { name := f.name, path := f.path
    type := if f.isdir then "directory" else "file"
    size := f.size }

/-- Embedding of `SynologyFileStation.get_file_info` restricted to the base
fields: issues a `getinfo` request and fails when the `files` array is
empty.  The caller accounts for the issued `FsCall.getinfo` request. -/
def getFileInfo (w : FsWorld) (p : String) : Except String ItemInfo :=
  match synoMakeRequest fsHead (w.getinfoEnv p) { files := [] } with
  | .error e => .error e
  | .ok d =>
    match d.files with
    | [] => .error ("File not found: " ++ p)
    | f :: _ => .ok (mapEntry f)

/-- Successful outcome of `SynologyFileStation.delete`. -/
structure DeleteOk where
  path : String
  itemName : String
  itemType : String
  recursive : Bool
  taskId : String
  message : String
  deriving DecidableEq, Repr

/-- The fixed denylist of critical system paths in
`SynologyFileStation.delete`. -/
def criticalPaths : List String :=
  ["/volume1", "/homes", "/var", "/etc", "/usr", "/bin", "/sbin"]

/-- The safety check of `SynologyFileStation.delete`: some denylist entry is
a leading segment of the path and the path is an exact denylist member. -/
def criticalHit (fp : String) : Bool :=
  (criticalPaths.any (fun c => strStarts fp c)) && criticalPaths.contains fp

/-- Polling loop of `SynologyFileStation.delete` (`while wait_time <
max_wait_time`, polling `status` every 0.5 s up to 120 s, hence at most 240
polls).  `i` is the poll index, `fuel` the remaining iterations.  Returns the
primary outcome of the `try` body together with the status requests issued:
`.ok` when the task finished without a reported error, `.error` on a failed
status request, a reported delete error, or timeout. -/
def deletePoll (w : FsWorld) (tid : String) : Nat → Nat → Except String Unit × List FsCall
  | _, 0 => (.error "Delete operation timed out after 120 seconds", [])
  | i, fuel + 1 =>
    let call := FsCall.deleteStatus tid
    match synoMakeRequest fsHead (w.deleteStatusEnv i) { finished := false, errorField := none } with
    | .error e => (.error e, [call])
    | .ok st =>
      if st.finished then
        match st.errorField with
        | some einfo => (.error ("Delete failed: " ++ einfo), [call])
        | none => (.ok (), [call])
      else
        let (r, t) := deletePoll w tid (i + 1) fuel
        (r, call :: t)

/-- Embedding of `SynologyFileStation.delete`: path validation, denylist
check, auto-detection via `get_file_info` (any failure there means
`recursive = False`), the async `start`, the 240-poll status loop, and —
only when the `try` body raises — a single `stop` attempt whose response is
discarded. -/
def fsDelete (w : FsWorld) (path : String) : Except String DeleteOk × List FsCall :=
  let fp := formatPath w.nfc path
  if fp = "" ∨ fp = "/" then (.error "Invalid path - cannot delete root", [])
  else if criticalHit fp then
    (.error ("Cannot delete critical system path: " ++ fp), [])
  else
    let recFlag := match getFileInfo w fp with
      | .ok info => info.type == "directory"
      | .error _ => false
    let itemName := baseName fp
    let itemType := if recFlag then "directory" else "file"
    let pre := [FsCall.getinfo fp, FsCall.deleteStart fp]
    match synoMakeRequest fsHead (w.deleteStartEnv fp) { taskid := none } with
    | .error e => (.error e, pre)
    | .ok sd =>
      let tid := sd.taskid.getD ""
      if tid = "" then (.error "Failed to start delete task", pre)
      else
        let (r, t) := deletePoll w tid 0 240
        match r with
        | .ok _ =>
          (.ok { path := fp, itemName := itemName, itemType := itemType
                 recursive := recFlag, taskId := tid
                 message := "Successfully deleted " ++ itemType ++ " " ++ quoted itemName },
           pre ++ t)
        | .error e =>
          let _stopResp := synoMakeRequest fsHead w.deleteStopEnv ()
          (.error e, pre ++ t ++ [FsCall.deleteStop tid])

/-- Polling loop of `SynologyFileStation.search_files` (`while True`, no
timeout).  `none` means the loop has not exited within `fuel` iterations
(the Python loop would still be running).  On a finished poll the `files` of
that same response are returned. -/
def searchPoll (w : FsWorld) (tid : String) : Nat → Nat → Option (Except String (List FileEntry)) × List FsCall
  | _, 0 => (none, [])
  | i, fuel + 1 =>
    let call := FsCall.searchList tid
    match synoMakeRequest fsHead (w.searchListEnv i) { finished := false, files := [] } with
    | .error e => (some (.error e), [call])
    | .ok d =>
      if d.finished then (some (.ok d.files), [call])
      else
        let (r, t) := searchPoll w tid (i + 1) fuel
        (r, call :: t)

/-- Embedding of `SynologyFileStation.search_files`: start the search task,
poll `list` until `finished`, and in a `finally` block issue exactly one
`stop` for the task id, discarding any error of the stop attempt.  A `none`
result models the Python loop still spinning (no exit path taken, hence no
`finally` yet). -/
def searchFiles (w : FsWorld) (fuel : Nat) (path pat : String) :
    Option (Except String (List ItemInfo)) × List FsCall :=
  let fp := formatPath w.nfc path
  let startCall := FsCall.searchStart fp pat
  match synoMakeRequest fsHead (w.searchStartEnv fp pat) { taskid := none } with
  | .error e => (some (.error e), [startCall])
  | .ok sd =>
    let tid := sd.taskid.getD ""
    if tid = "" then (some (.error "Failed to start search task"), [startCall])
    else
      match searchPoll w tid 0 fuel with
      | (none, t) => (none, startCall :: t)
      | (some r, t) =>
        let _stopResp := synoMakeRequest fsHead w.searchStopEnv ()
        (some (r.map (List.map mapEntry)), startCall :: t ++ [FsCall.searchStop tid])

/-- Successful outcome of `SynologyFileStation.move_file`. -/
structure MoveOk where
  sourcePath : String
  destinationPath : String
  taskId : String
  message : String
  deriving DecidableEq, Repr

/-- Polling loop of `SynologyFileStation.move_file` (at most 60 s at 0.5 s
per poll, hence 120 polls). -/
def movePoll (w : FsWorld) (tid : String) : Nat → Nat → Except String Unit × List FsCall
  | _, 0 => (.error "Move operation timed out after 60 seconds", [])
  | i, fuel + 1 =>
    let call := FsCall.moveStatus tid
    match synoMakeRequest fsHead (w.moveStatusEnv i) { finished := false, errorField := none } with
    | .error e => (.error e, [call])
    | .ok st =>
      if st.finished then
        match st.errorField with
        | some einfo => (.error ("Move failed: " ++ einfo), [call])
        | none => (.ok (), [call])
      else
        let (r, t) := movePoll w tid (i + 1) fuel
        (r, call :: t)

/-- Embedding of `SynologyFileStation.move_file`: validate both formatted
paths, start the `CopyMove` task, poll up to 120 times, and on any raise of
the `try` body issue a single `stop` attempt whose response is discarded; on
success no stop is issued. -/
def moveFile (w : FsWorld) (srcPath destPath : String) : Except String MoveOk × List FsCall :=
  let fs := formatPath w.nfc srcPath
  let fd := formatPath w.nfc destPath
  if fs = "" ∨ fs = "/" then (.error "Invalid source path", [])
  else if fd = "" ∨ fd = "/" then (.error "Invalid destination path", [])
  else
    let pre := [FsCall.moveStart fs fd]
    match synoMakeRequest fsHead (w.moveStartEnv fs fd) { taskid := none } with
    | .error e => (.error e, pre)
    | .ok sd =>
      let tid := sd.taskid.getD ""
      if tid = "" then (.error "Failed to start move task", pre)
      else
        let (r, t) := movePoll w tid 0 120
        match r with
        | .ok _ =>
          let srcName := baseName fs
          let finalDest := if endsSlash fd ∨ ¬hasExt fd then posixJoin fd srcName else fd
          (.ok { sourcePath := fs, destinationPath := finalDest, taskId := tid
                 message := "Successfully moved " ++ quoted fs ++ " to " ++ quoted finalDest },
           pre ++ t)
        | .error e =>
          let _stopResp := synoMakeRequest fsHead w.moveStopEnv ()
          (.error e, pre ++ t ++ [FsCall.moveStop tid])

/-! ## iSCSI operations (`synology_iscsi.py`) -/

/-- A backend request issued by the iSCSI module. -/
inductive IscsiCall where
  | lunGet (uuid : String)
  | lunDelete (uuid : String)
  deriving DecidableEq, Repr

/-- Raw `lun` object of a `get` response; every field read with `.get` and a
default.  The floating-point display fields (`size_gb`, `used_size_gb`) are
derived by `round(size / 1024 ** 3, 2)` in the source and are omitted here
(no claim mentions them). -/
structure LunRaw where
  uuid : Option String
  name : Option String
  size : Option Nat
  status : Option String
  usedSize : Option Nat
  location : Option String
  isMapped : Option Bool
  isOnline : Option Bool
  type : Option String
  thinProvisioning : Option Bool
  targets : Option (List String)
  canDoSnapshot : Option Bool
  isActionLocked : Option Bool
  deriving DecidableEq, Repr

/-- Payload of a LUN `get` response: `data.get('lun', {})`. -/
structure LunGetData where
  lun : Option LunRaw
  deriving DecidableEq, Repr

/-- Result dict built by `SynologyISCSI.get_lun` (display-float fields
omitted, see `LunRaw`). -/
structure LunInfo where
  uuid : Option String
  name : Option String
  size : Nat
  status : Option String
  usedSize : Nat
  location : Option String
  isMapped : Bool
  isOnline : Bool
  type : Option String
  thinProvisioning : Bool
  targets : List String
  canDoSnapshot : Bool
  isActionLocked : Bool
  deriving DecidableEq, Repr

/-- An empty `lun` object, Python `data.get('lun', {})` default. -/
def emptyLunRaw : LunRaw :=
  { uuid := none, name := none, size := none, status := none, usedSize := none
    location := none, isMapped := none, isOnline := none, type := none
    thinProvisioning := none, targets := none, canDoSnapshot := none
    isActionLocked := none }

/-- Oracle for the iSCSI backend: the envelope answered to a LUN `get` and
to a LUN `delete`, per uuid. -/
structure IscsiWorld where
  getEnv : String → Envelope LunGetData
  deleteEnv : String → Envelope Unit

/-- Embedding of `SynologyISCSI.get_lun`: fetch the LUN and flatten its
fields with the source defaults. -/
def getLun (w : IscsiWorld) (uuid : String) : Except String LunInfo × List IscsiCall :=
  let call := IscsiCall.lunGet uuid
  match synoMakeRequest iscsiHead (w.getEnv uuid) { lun := none } with
  | .error e => (.error e, [call])
  | .ok d =>
    let lun := d.lun.getD emptyLunRaw
    (.ok { uuid := lun.uuid, name := lun.name, size := lun.size.getD 0
           status := lun.status, usedSize := lun.usedSize.getD 0
           location := lun.location, isMapped := lun.isMapped.getD false
           isOnline := lun.isOnline.getD false, type := lun.type
           thinProvisioning := lun.thinProvisioning.getD false
           targets := lun.targets.getD [], canDoSnapshot := lun.canDoSnapshot.getD false
           isActionLocked := lun.isActionLocked.getD false }, [call])

/-- Successful outcome of `SynologyISCSI.delete_lun`. -/
structure DeleteLunOk where
  uuid : String
  message : String
  deriving DecidableEq, Repr

/-- Embedding of `SynologyISCSI.delete_lun`: a single POST `delete` request
for the (JSON-quoted) uuid; no other request is issued and no local
validation is performed before it. -/
def deleteLun (w : IscsiWorld) (uuid : String) : Except String DeleteLunOk × List IscsiCall :=
  let call := IscsiCall.lunDelete uuid
  match synoMakeRequest iscsiHead (w.deleteEnv uuid) () with
  | .error e => (.error e, [call])
  | .ok _ =>
    (.ok { uuid := uuid, message := "LUN " ++ uuid ++ " deleted successfully" }, [call])

/-! ## Download Station operations (`synology_downloadstation.py`)

The Download Station `_make_request` differs from the FileStation one: it
never reads the nested `errors` array, it translates the top-level code
through `_get_error_message`, and it wraps transport exceptions as
`"Network error: ..."`.  The oracle therefore answers either a transport
failure (`.error`) or an envelope. -/

/-- Embedding of `SynologyDownloadStation._get_error_message`. -/
def dsGetErrorMessage (code : String) : String :=
  match code with
  | "100" => "Unknown error"
  | "101" => "Invalid parameter"
  | "102" => "The requested API does not exist"
  | "103" => "The requested method does not exist"
  | "104" => "The requested version does not support the functionality"
  | "105" => "The logged in session does not have permission"
  | "106" => "Session timeout"
  | "107" => "Session interrupted by duplicate login"
  | "120" => "Invalid task id or task not found"
  | "400" => "File upload failed"
  | "401" => "Max number of tasks reached"
  | "402" => "Destination denied"
  | "403" => "Destination does not exist"
  | "404" => "Invalid task id"
  | "405" => "Invalid task action"
  | "406" => "No default destination"
  | "407" => "Set destination failed"
  | "408" => "File does not exist"
  | "409" => "Task already exists"
  | "410" => "Task already finished"
  | _ => "Unknown error: " ++ code

/-- Embedding of `SynologyDownloadStation._make_request` after the HTTP
exchange: a transport exception becomes `"Network error: ..."`, a failed
envelope raises `"Download Station API error {code}: {message}"`, a
successful one yields its data. -/
def dsMakeRequest {α : Type} (r : Except String (Envelope α)) (dflt : α) :
    Except String α :=
  match r with
  | .error e => .error ("Network error: " ++ e)
  | .ok env =>
    if env.success then .ok (env.data.getD dflt)
    else
      let code := errCodeStr (env.error.bind ApiError.code)
      .error ("Download Station API error " ++ code ++ ": " ++ dsGetErrorMessage code)

/-- The literal string `"doesn't exist"` tested by the version fallback of
`list_tasks`. -/
def doesntExistStr : String := "doesn" ++ String.mk [apoc] ++ "t exist"

/-- The version-fallback condition of `list_tasks`:
`"doesn't exist" in str(e) or "102" in str(e) or "104" in str(e)`. -/
def dsFallbackHit (e : String) : Bool :=
  strContains e doesntExistStr || strContains e "102" || strContains e "104"

/-- The `detail` block of a task's `additional` info. -/
structure TaskDetail where
  destination : Option String
  uri : Option String
  priority : Option String
  totalPeers : Option Int
  connectedSeeders : Option Int
  connectedLeechers : Option Int
  deriving DecidableEq, Repr

/-- The `transfer` block of a task's `additional` info. -/
structure TaskTransfer where
  sizeDownloaded : Option Int
  sizeUploaded : Option Int
  speedDownload : Option Int
  speedUpload : Option Int
  deriving DecidableEq, Repr

/-- The `additional` object of a raw task. -/
structure TaskAdditional where
  detail : Option TaskDetail
  transfer : Option TaskTransfer
  deriving DecidableEq, Repr

/-- A raw task object of a `list` response.  `status_extra` is kept as an
opaque rendering of the dict the source passes through unchanged. -/
structure TaskRaw where
  id : Option String
  type : Option String
  username : Option String
  title : Option String
  size : Option Int
  status : Option String
  statusExtra : Option String
  createTime : Option Int
  startedTime : Option Int
  completedTime : Option Int
  additional : Option TaskAdditional
  deriving DecidableEq, Repr

/-- The task dict built by `list_tasks`: the base fields, plus the `detail`
and `transfer` blocks exactly when present in the raw task (the source
merges their fields into the flat dict; the block option records that key
presence). -/
structure TaskInfo where
  id : Option String
  type : Option String
  username : Option String
  title : Option String
  size : Option Int
  status : Option String
  statusExtra : Option String
  createTime : Option Int
  startedTime : Option Int
  completedTime : Option Int
  detail : Option TaskDetail
  transfer : Option TaskTransfer
  deriving DecidableEq, Repr

/-- Per-task mapping performed by `list_tasks`. -/
def mapTask (t : TaskRaw) : TaskInfo :=
  { id := t.id, type := t.type, username := t.username, title := t.title
    size := t.size, status := t.status, statusExtra := t.statusExtra
    createTime := t.createTime, startedTime := t.startedTime
    completedTime := t.completedTime
    detail := t.additional.bind TaskAdditional.detail
    transfer := t.additional.bind TaskAdditional.transfer }

/-- Payload of a task `list` response. -/
structure TaskListData where
  total : Option Int
  offset : Option Int
  tasks : Option (List TaskRaw)
  deriving DecidableEq, Repr

/-- Result of `list_tasks`. -/
structure TaskListResult where
  total : Int
  offset : Int
  tasks : List TaskInfo
  deriving DecidableEq, Repr

/-- Final dict built by `list_tasks` from a successful response:
`total` defaults to the number of tasks, `offset` to the requested offset. -/
def buildTaskListResult (d : TaskListData) (offset : Int) : TaskListResult :=
  let tasks := (d.tasks.getD []).map mapTask
  { total := d.total.getD (Int.ofNat tasks.length)
    offset := d.offset.getD offset
    tasks := tasks }

/-- Payload of a create response (`task_id` and `list_id` arrays, defaulting
to empty). -/
structure CreateData where
  taskIds : List String
  listIds : List String
  deriving DecidableEq, Repr

/-- A backend request issued by the Download Station module.  `fsCheck` is
the raw FileStation `getinfo` probe of `_check_destination_exists`. -/
inductive DsCall where
  | taskList (version : String) (offset : Int) (lim : Int) (addl : String)
  | taskCreate (version : String) (dest : String) (uri : String)
      (user : Option String) (pass : Option String)
  | fsCheck (path : String)
  deriving DecidableEq, Repr

/-- Oracle for the Download Station backend: the task `list` response per
API version, the two create responses, and the raw destination-probe
response per probed path.  `.error` models a transport exception. -/
structure DsWorld where
  listEnv : String → Except String (Envelope TaskListData)
  createEnvV2 : Except String (Envelope CreateData)
  createEnvV1 : Except String (Envelope CreateData)
  checkEnv : String → Except String (Envelope GetInfoData)

/-- Embedding of `SynologyDownloadStation.list_tasks`: try API version 2;
when the raised message matches `dsFallbackHit`, retry with version 1 and on
a second failure return the well-formed empty dict instead of raising; any
other version-2 failure is re-raised. -/
def listTasks (w : DsWorld) (offset : Int) (lim : Int) (additional : Option String) :
    Except String TaskListResult × List DsCall :=
  let limEff := if lim > 0 then lim else 100
  let addl := additional.getD "detail,transfer"
  let callV2 := DsCall.taskList "2" offset limEff addl
  match dsMakeRequest (w.listEnv "2") { total := none, offset := none, tasks := none } with
  | .ok d => (.ok (buildTaskListResult d offset), [callV2])
  | .error e =>
    if dsFallbackHit e then
      let callV1 := DsCall.taskList "1" offset limEff addl
      match dsMakeRequest (w.listEnv "1") { total := none, offset := none, tasks := none } with
      | .ok d => (.ok (buildTaskListResult d offset), [callV2, callV1])
      | .error _ => (.ok { total := 0, offset := offset, tasks := [] }, [callV2, callV1])
    else (.error e, [callV2])

/-- Embedding of `SynologyDownloadStation._check_destination_exists`: a raw
FileStation `getinfo` on `/{destination}` must succeed with a nonempty
`files` array whose first entry is a directory; every exception reads as
`false`. -/
def checkDest (w : DsWorld) (destination : String) : Bool :=
  match w.checkEnv ("/" ++ destination) with
  | .error _ => false
  | .ok env =>
    env.success &&
      (match env.data with
       | some d =>
         (match d.files with
          | [] => false
          | f :: _ => f.isdir)
       | none => false)

/-- Embedding of `SynologyDownloadStation.get_common_destinations`, with the
mutable `preferred_default_destination` field (initially `"downloads"`) as
the parameter `pd`. -/
def commonDestinations (pd : String) : List String :=
  [pd, "video", "music", "software", "documents", "photos", "backup"]

/-- Helper for `get_default_destination`: the first destination of the list
that exists, with the probes issued along the way. -/
def firstExisting (w : DsWorld) : List String → Option String × List DsCall
  | [] => (none, [])
  | d :: t =>
    let probe := DsCall.fsCheck ("/" ++ d)
    if checkDest w d then (some d, [probe])
    else
      let (r, tr) := firstExisting w t
      (r, probe :: tr)

/-- Embedding of `SynologyDownloadStation.get_default_destination`: the
preferred destination when it exists, otherwise the first existing common
destination, otherwise the preferred name anyway. -/
def getDefaultDestination (w : DsWorld) (pd : String) : String × List DsCall :=
  let probePd := DsCall.fsCheck ("/" ++ pd)
  if checkDest w pd then (pd, [probePd])
  else
    match firstExisting w ((commonDestinations pd).drop 1) with
    | (some d, tr) => (d, probePd :: tr)
    | (none, tr) => (pd, probePd :: tr)

/-- Embedding of `SynologyDownloadStation.create_task`: resolve a missing or
empty destination through `get_default_destination`, validate that the
destination exists before any create request (collecting the existing common
destinations as suggestions on failure), then create with API version 2 and
fall back to version 1 on any failure. -/
def createTask (w : DsWorld) (pd : String) (uri : String)
    (destination user pass : Option String) : Except String CreateData × List DsCall :=
  let (dest, t0) :=
    if destination.getD "" = "" then getDefaultDestination w pd
    else (destination.getD "", [])
  let vProbe := DsCall.fsCheck ("/" ++ dest)
  if ¬checkDest w dest then
    let sugg := (commonDestinations pd).filter (fun d => checkDest w d)
    let suggProbes := (commonDestinations pd).map (fun d => DsCall.fsCheck ("/" ++ d))
    let msg := "Destination folder " ++ quoted dest ++ " does not exist on the NAS." ++
      (if sugg.isEmpty then
        " Please create the " ++ quoted "downloads" ++ " folder first in File Station."
       else " Available folders: " ++ joinSep ", " sugg)
    (.error msg, t0 ++ vProbe :: suggProbes)
  else
    let c2 := DsCall.taskCreate "2" dest uri user pass
    match dsMakeRequest w.createEnvV2 { taskIds := [], listIds := [] } with
    | .ok d => (.ok d, t0 ++ [vProbe, c2])
    | .error e =>
      let c1 := DsCall.taskCreate "1" dest uri user pass
      match dsMakeRequest w.createEnvV1 { taskIds := [], listIds := [] } with
      | .ok d => (.ok d, t0 ++ [vProbe, c2, c1])
      | .error _ =>
        (.error ("Task creation failed: " ++ e ++
          ". Make sure the URL is valid and you have permission to create downloads."),
         t0 ++ [vProbe, c2, c1])

/-! ## MCP server session state (`mcp_server.py`)

`SynologyMCPServer` keeps three dicts keyed by base URL: `sessions`
(token per endpoint), `filestation_instances` and `downloadstation_instances`
(capability modules constructed with a token).  Dicts are modelled as
association lists where an update removes every older binding of the key, so
lookups agree with Python dict semantics.  `SynologyAuth` instances carry no
session token, so the `auth_instances` cache is modelled as the stateless
oracle `AuthWorld`. -/

/-- Association-list lookup (Python `d[k]` / `k in d`). -/
def alook {β : Type} (l : List (String × β)) (k : String) : Option β :=
  match l with
  | [] => none
  | (a, b) :: t => if a = k then some b else alook t k

/-- Association-list removal (Python `del d[k]`, total). -/
def aremove {β : Type} (k : String) : List (String × β) → List (String × β)
  | [] => []
  | p :: t => if p.1 = k then aremove k t else p :: aremove k t

/-- Association-list update (Python `d[k] = v`). -/
def aset {β : Type} (k : String) (v : β) (l : List (String × β)) : List (String × β) :=
  (k, v) :: aremove k l

/-- A cached `SynologyFileStation` instance: constructed from a base URL
(trailing slashes stripped) and the session token of the moment. -/
structure FsInst where
  baseUrl : String
  sessionId : String
  deriving DecidableEq, Repr

/-- Constructor `SynologyFileStation(base_url, session_id)`. -/
def mkFsInst (url sid : String) : FsInst :=
  { baseUrl := rstripSlash url, sessionId := sid }

/-- A cached `SynologyDownloadStation` instance. -/
structure DsInst where
  baseUrl : String
  sessionId : String
  deriving DecidableEq, Repr

/-- Constructor `SynologyDownloadStation(base_url, session_id)`. -/
def mkDsInst (url sid : String) : DsInst :=
  { baseUrl := rstripSlash url, sessionId := sid }

/-- The mutable state of `SynologyMCPServer`. -/
structure ServerState where
  sessions : List (String × String)
  fsInstances : List (String × FsInst)
  dsInstances : List (String × DsInst)
  deriving DecidableEq, Repr

/-- Result of `SynologyAuth.login`: the `success` flag and the optional
`data.sid` (a missing `data`/`sid` key would raise a `KeyError`). -/
structure LoginResp where
  success : Bool
  sid : Option String
  deriving DecidableEq, Repr

/-- The `error` object of a `SynologyAuth.logout` result. -/
structure LogoutErr where
  code : String
  message : Option String
  deriving DecidableEq, Repr

/-- Result of `SynologyAuth.logout`. -/
structure LogoutResp where
  success : Bool
  error : Option LogoutErr
  deriving DecidableEq, Repr

/-- Oracle for the authentication backend. -/
structure AuthWorld where
  login : String → String → String → LoginResp
  logout : String → String → LogoutResp

/-- Embedding of `SynologyMCPServer._get_filestation`: require a session for
the URL, then return the cached instance or construct and cache one with the
stored token. -/
def getFilestation (st : ServerState) (url : String) : Except String (FsInst × ServerState) :=
  match alook st.sessions url with
  | none => .error ("No active session for " ++ url ++ ". Please login first.")
  | some sid =>
    match alook st.fsInstances url with
    | some inst => .ok (inst, st)
    | none =>
      let inst := mkFsInst url sid
      .ok (inst, { st with fsInstances := aset url inst st.fsInstances })

/-- Embedding of `SynologyMCPServer._get_downloadstation`. -/
def getDownloadstation (st : ServerState) (url : String) : Except String (DsInst × ServerState) :=
  match alook st.sessions url with
  | none => .error ("No active session for " ++ url ++ ". Please login first.")
  | some sid =>
    match alook st.dsInstances url with
    | some inst => .ok (inst, st)
    | none =>
      let inst := mkDsInst url sid
      .ok (inst, { st with dsInstances := aset url inst st.dsInstances })

/-- Outcome classification of `_handle_login` (the returned `TextContent`
strings are abstracted to which branch produced them). -/
inductive LoginOutcome where
  | ok (sid : String)
  | authFailed
  | missingSid
  deriving DecidableEq, Repr

/-- Embedding of `SynologyMCPServer._handle_login`: on a successful login
store the new token for the endpoint and drop every cached FileStation and
DownloadStation instance for it; on failure leave the state untouched.
`missingSid` models the `KeyError` a success response without a sid would
raise. -/
def handleLogin (w : AuthWorld) (st : ServerState) (url user pass : String) :
    LoginOutcome × ServerState :=
  let r := w.login url user pass
  if r.success then
    match r.sid with
    | some sid =>
      (.ok sid,
       { sessions := aset url sid st.sessions
         fsInstances := aremove url st.fsInstances
         dsInstances := aremove url st.dsInstances })
    | none => (.missingSid, st)
  else (.authFailed, st)

/-- Outcome classification of `_handle_logout`. -/
inductive LogoutOutcome where
  | noSession
  | loggedOut
  | alreadyExpired (code : String)
  | failed (code : String)
  deriving DecidableEq, Repr

/-- The session-expiry error-code class of `_handle_logout`. -/
def expiredCodes : List String := ["105", "106", "no_session"]

/-- Embedding of `SynologyMCPServer._handle_logout`: with no session the
state is untouched; a successful remote logout or a session-expiry-class
error removes the session and both instance caches; any other remote error
leaves the whole state untouched and reports a failure. -/
def handleLogout (w : AuthWorld) (st : ServerState) (url : String) :
    LogoutOutcome × ServerState :=
  match alook st.sessions url with
  | none => (.noSession, st)
  | some sid =>
    let r := w.logout url sid
    let cleaned : ServerState :=
      { sessions := aremove url st.sessions
        fsInstances := aremove url st.fsInstances
        dsInstances := aremove url st.dsInstances }
    if r.success then (.loggedOut, cleaned)
    else
      let code := (r.error.map LogoutErr.code).getD "unknown"
      if expiredCodes.contains code then (.alreadyExpired code, cleaned)
      else (.failed code, st)

/-! ## Concrete worlds and trace predicates used by the claim theorems -/

/-- Is this FileStation call a delete-task `stop` request? -/
def isDeleteStopCall : FsCall → Bool
  | .deleteStop _ => true
  | _ => false

/-- Is this FileStation call a move-task `stop` request? -/
def isMoveStopCall : FsCall → Bool
  | .moveStop _ => true
  | _ => false

/-- Is this FileStation call a search-task `stop` request? -/
def isSearchStopCall : FsCall → Bool
  | .searchStop _ => true
  | _ => false

/-- Is this Download Station call a task `create` request? -/
def isCreateCall : DsCall → Bool
  | .taskCreate _ _ _ _ _ => true
  | _ => false

/-- A FileStation backend where every request succeeds at once: file lookups
find a plain file, every task starts with a fixed task id, and the first
status poll reports `finished` with no error. -/
def wDeleteOk : FsWorld :=
  { nfc := id
    getinfoEnv := fun _ =>
      { success := true
        data := some { files := [{ name := "f", path := "/tmp/f", isdir := false, size := 1 }] }
        error := none }
    searchStartEnv := fun _ _ =>
      { success := true, data := some { taskid := some "s1" }, error := none }
    searchListEnv := fun _ =>
      { success := true, data := some { finished := true, files := [] }, error := none }
    searchStopEnv := { success := true, data := some (), error := none }
    deleteStartEnv := fun _ =>
      { success := true, data := some { taskid := some "t1" }, error := none }
    deleteStatusEnv := fun _ =>
      { success := true, data := some { finished := true, errorField := none }, error := none }
    deleteStopEnv := { success := true, data := some (), error := none }
    moveStartEnv := fun _ _ =>
      { success := true, data := some { taskid := some "m1" }, error := none }
    moveStatusEnv := fun _ =>
      { success := true, data := some { finished := true, errorField := none }, error := none }
    moveStopEnv := { success := true, data := some (), error := none } }

/-- An iSCSI backend whose LUN `u1` reports `is_mapped = true` and whose
`delete` request nevertheless succeeds. -/
def wMappedLun : IscsiWorld :=
  { getEnv := fun _ =>
      { success := true
        data := some { lun := some { emptyLunRaw with uuid := some "u1", isMapped := some true } }
        error := none }
    deleteEnv := fun _ => { success := true, data := some (), error := none } }

/-- A failed Download Station envelope with the given top-level error code. -/
def dsFailEnv (code : Nat) : Except String (Envelope TaskListData) :=
  .ok { success := false, data := none, error := some { code := some code, errors := none } }

/-- Download Station backend answering error code 103 (`method does not
exist`) to the version-2 task list and succeeding on version 1. -/
def wDs103 : DsWorld :=
  { listEnv := fun v =>
      if v = "2" then dsFailEnv 103
      else .ok { success := true
                 data := some { total := some 0, offset := some 0, tasks := some [] }
                 error := none }
    createEnvV2 := .error "unused"
    createEnvV1 := .error "unused"
    checkEnv := fun _ => .error "unused" }

/-- Download Station backend answering error code 105 (no permission) to the
version-2 task list. -/
def wDs105 : DsWorld :=
  { listEnv := fun v =>
      if v = "2" then dsFailEnv 105
      else .ok { success := true
                 data := some { total := some 0, offset := some 0, tasks := some [] }
                 error := none }
    createEnvV2 := .error "unused"
    createEnvV1 := .error "unused"
    checkEnv := fun _ => .error "unused" }

/-- Download Station backend answering error code 102 to both task-list
versions. -/
def wDs102 : DsWorld :=
  { listEnv := fun _ => dsFailEnv 102
    createEnvV2 := .error "unused"
    createEnvV1 := .error "unused"
    checkEnv := fun _ => .error "unused" }

/-- Download Station backend on which no destination folder exists. -/
def wDsNone : DsWorld :=
  { listEnv := fun _ => .error "unused"
    createEnvV2 := .error "unused"
    createEnvV1 := .error "unused"
    checkEnv := fun _ => .ok { success := false, data := none, error := none } }

/-- Download Station backend on which exactly the folder `video` exists and
the version-2 create request succeeds. -/
def wDsVideo : DsWorld :=
  { listEnv := fun _ => .error "unused"
    createEnvV2 :=
      .ok { success := true
            data := some { taskIds := ["dbid_1"], listIds := [] }
            error := none }
    createEnvV1 := .error "unused"
    checkEnv := fun p =>
      if p = "/video" then
        .ok { success := true
              data := some { files := [{ name := "video", path := "/video", isdir := true, size := 0 }] }
              error := none }
      else .ok { success := false, data := none, error := none } }

/-- Auth backend whose login always succeeds with sid `sid9` and whose
logout succeeds. -/
def wAuthOk : AuthWorld :=
  { login := fun _ _ _ => { success := true, sid := some "sid9" }
    logout := fun _ _ => { success := true, error := none } }

/-- Auth backend whose logout fails with the non-expiry code `400`. -/
def wAuthFail : AuthWorld :=
  { login := fun _ _ _ => { success := false, sid := none }
    logout := fun _ _ =>
      { success := false, error := some { code := "400", message := some "File upload failed" } } }

/-- Auth backend whose logout reports the session-expiry code `106`. -/
def wAuthExp : AuthWorld :=
  { login := fun _ _ _ => { success := false, sid := none }
    logout := fun _ _ =>
      { success := false, error := some { code := "106", message := some "Session timeout" } } }

/-- A server state holding a session and cached instances for one
endpoint. -/
def stOne : ServerState :=
  { sessions := [("http://nas", "sidOld")]
    fsInstances := [("http://nas", mkFsInst "http://nas" "sidOld")]
    dsInstances := [("http://nas", mkDsInst "http://nas" "sidOld")] }

/-- A failed envelope with a top-level code and a two-item nested error
list, exercising the detail formatting of `_make_request`. -/
def resp9 : Envelope Unit :=
  { success := false
    data := none
    error := some { code := some 408
                    errors := some [{ code := some 418, path := some "/a" },
                                    { code := none, path := none }] } }

set_option maxRecDepth 4000

/-! ## Helper lemmas -/

/-- Every member of a joined list occurs contiguously in the join. -/
theorem joinSep_mem (s a : String) : ∀ m : List String, a ∈ m →
    ∃ u v, joinSep s m = u ++ a ++ v
  | [], h => absurd h (List.not_mem_nil a)
  | [x], h => by
    rcases List.mem_singleton.mp h with rfl
    exact ⟨"", "", by simp [joinSep, String.append_empty]⟩
  | x :: y :: t, h => by
    rcases List.mem_cons.mp h with rfl | h
    · exact ⟨"", s ++ joinSep s (y :: t), by simp [joinSep, String.append_assoc]⟩
    · obtain ⟨u, v, hu⟩ := joinSep_mem s a (y :: t) h
      exact ⟨x ++ s ++ u, v, by simp [joinSep, hu, String.append_assoc]⟩

/-- Decomposition of the `_make_request` error message: head, top-level
code, then the optional details block. -/
theorem synoErrorMessage_eq (head : String) (err : Option ApiError) :
    synoErrorMessage head err =
      head ++ errCodeStr (err.bind ApiError.code) ++
        (match err.bind ApiError.errors with
         | some l => if l.isEmpty then "" else " - Details: " ++ detailsOf l
         | none => "") := by
  unfold synoErrorMessage
  cases hb : err.bind ApiError.errors with
  | none => simp [String.append_empty]
  | some l =>
    cases l with
    | nil => simp [String.append_empty]
    | cons e t => simp [String.append_assoc]

/-- C9: a response envelope with `success == false` makes the transport
layer fail with a message carrying the top-level error code and, when the
nested per-item error list is present and nonempty, containing the in-order
concatenation of the per-item details (each item contributing its code and
optional path); an envelope with `success == true` never raises and yields
the data payload. -/
theorem c9_make_request_envelope {α : Type} (head : String) (resp : Envelope α) (dflt : α) :
    (resp.success = true → synoMakeRequest head resp dflt = .ok (resp.data.getD dflt)) ∧
    (resp.success = false → ∃ msg, synoMakeRequest head resp dflt = .error msg ∧
      (∃ t0, msg = head ++ errCodeStr (resp.error.bind ApiError.code) ++ t0) ∧
      (∀ l, resp.error.bind ApiError.errors = some l → l ≠ [] →
        (∃ u, msg = u ++ detailsOf l) ∧
        (∀ e, e ∈ l → ∃ u v, msg = u ++ itemDetail e ++ v))) := by
  constructor
  · intro h; simp [synoMakeRequest, h]
  · intro h
    refine ⟨synoErrorMessage head resp.error, by simp [synoMakeRequest, h], ⟨_, synoErrorMessage_eq head resp.error⟩, ?_⟩
    intro l hl hne
    have hmsg : synoErrorMessage head resp.error =
        head ++ errCodeStr (resp.error.bind ApiError.code) ++ (" - Details: " ++ detailsOf l) := by
      rw [synoErrorMessage_eq, hl]
      simp [List.isEmpty_iff, hne]
    constructor
    · exact ⟨head ++ errCodeStr (resp.error.bind ApiError.code) ++ " - Details: ",
        by simp [hmsg, String.append_assoc]⟩
    · intro e he
      obtain ⟨u, v, hu⟩ := joinSep_mem "; " (itemDetail e) (l.map itemDetail)
        (List.mem_map_of_mem itemDetail he)
      exact ⟨head ++ errCodeStr (resp.error.bind ApiError.code) ++ " - Details: " ++ u, v,
        by simp [hmsg, detailsOf, hu, String.append_assoc]⟩

/-- Witness for C9: the theorem applied to a concrete failed envelope with a
two-item nested error list. -/
theorem c9_witness :
    resp9.success = false ∧
    (∃ msg, synoMakeRequest fsHead resp9 () = .error msg ∧
      (∃ t0, msg = fsHead ++ errCodeStr (resp9.error.bind ApiError.code) ++ t0) ∧
      (∀ l, resp9.error.bind ApiError.errors = some l → l ≠ [] →
        (∃ u, msg = u ++ detailsOf l) ∧
        (∀ e, e ∈ l → ∃ u v, msg = u ++ itemDetail e ++ v))) :=
  ⟨rfl, (c9_make_request_envelope fsHead resp9 ()).2 rfl⟩

/-- A path that starts with a slash, does not end with one (or is the root),
and is fixed by the normalizer is fixed by `_format_path`. -/
theorem formatPath_fixed (nfc : String → String) (p : String)
    (h1 : startsSlash p = true) (h2 : p = "/" ∨ endsSlash p = false)
    (hn : nfc p = p) : formatPath nfc p = p := by
  rcases h2 with h2 | h2
  · subst h2; simp +decide [formatPath, hn]
  · simp [formatPath, h1, h2, hn]

/-- C5: deleting the root path or an exact member of the critical-path
denylist fails before any backend request: the result is an error and the
issued-request trace is empty. -/
theorem c5_delete_root_denylist (w : FsWorld) (p : String)
    (hn : w.nfc p = p) (hp : p = "/" ∨ p ∈ criticalPaths) :
    (∃ e, (fsDelete w p).fst = .error e) ∧ (fsDelete w p).snd = [] := by
  have hfp : formatPath w.nfc p = p := by
    refine formatPath_fixed w.nfc p ?_ ?_ hn
    · rcases hp with h | h
      · subst h; decide
      · simp [criticalPaths] at h
        rcases h with rfl | rfl | rfl | rfl | rfl | rfl | rfl <;> decide
    · rcases hp with h | h
      · exact .inl h
      · simp [criticalPaths] at h
        rcases h with rfl | rfl | rfl | rfl | rfl | rfl | rfl <;> exact .inr (by decide)
  rcases hp with h | h
  · subst h
    have hev : fsDelete w "/" = (.error "Invalid path - cannot delete root", []) := by
      simp +decide [fsDelete, hfp]
    rw [hev]
    exact ⟨⟨_, rfl⟩, rfl⟩
  · simp [criticalPaths] at h
    rcases h with rfl | rfl | rfl | rfl | rfl | rfl | rfl <;>
      simp +decide [fsDelete, hfp]

/-- Witness for C5: deleting `"/etc"` on a concrete world errors with an
empty request trace. -/
theorem c5_witness :
    (∃ e, (fsDelete wDeleteOk "/etc").fst = .error e) ∧ (fsDelete wDeleteOk "/etc").snd = [] :=
  c5_delete_root_denylist wDeleteOk "/etc" rfl (.inr (by decide))

/-- C2, counterexample: on a backend whose LUN `u1` reports
`is_mapped = true`, `delete_lun` neither fetches the mapping state nor
refuses — it issues exactly the backend delete request and succeeds, so the
claimed validation failure does not happen. -/
theorem c2_counterexample :
    (∃ info, (getLun wMappedLun "u1").fst = .ok info ∧ info.isMapped = true) ∧
    (deleteLun wMappedLun "u1").snd = [IscsiCall.lunDelete "u1"] ∧
    (∃ r, (deleteLun wMappedLun "u1").fst = .ok r) := by
  refine ⟨⟨_, rfl, rfl⟩, rfl, ⟨_, rfl⟩⟩

/-- C2, amended: `delete_lun` unconditionally issues exactly one backend
delete request for the uuid — no mapping-state fetch, no local refusal — and
succeeds exactly when the backend envelope reports success; unmapping first
is only a documented caller obligation. -/
theorem c2_delete_lun_unconditional (w : IscsiWorld) (uuid : String) :
    (deleteLun w uuid).snd = [IscsiCall.lunDelete uuid] ∧
    ((∃ r, (deleteLun w uuid).fst = .ok r) ↔ (w.deleteEnv uuid).success = true) := by
  unfold deleteLun synoMakeRequest
  cases h : (w.deleteEnv uuid).success <;> simp [h]

/-- C3: evaluation of `list_tasks` at the failing input.  Error code 103
(`The requested method does not exist`) on the version-2 call is re-raised
with no version-1 attempt (the fallback only matches the substrings
`"doesn't exist"`, `"102"` and `"104"`, and the code-103 message reads
`"does not"`), even though the version-1 call would have succeeded; an
authorization error (105) is likewise surfaced without fallback, as the
claim states. -/
theorem c3_code_evaluation :
    (listTasks wDs103 0 (-1) none).fst =
      .error "Download Station API error 103: The requested method does not exist" ∧
    (listTasks wDs103 0 (-1) none).snd = [DsCall.taskList "2" 0 100 "detail,transfer"] ∧
    dsMakeRequest (wDs103.listEnv "1") { total := none, offset := none, tasks := none } =
      .ok { total := some 0, offset := some 0, tasks := some [] } ∧
    (listTasks wDs105 0 (-1) none).fst =
      .error "Download Station API error 105: The logged in session does not have permission" ∧
    (listTasks wDs105 0 (-1) none).snd = [DsCall.taskList "2" 0 100 "detail,transfer"] := by
  refine ⟨?_, ?_, ?_, ?_, ?_⟩ <;> rfl

/-- C10: when the version-2 task list fails with a fallback-class message
and the version-1 retry fails with any message, `list_tasks` does not raise:
it returns the well-formed empty dict with `total = 0`, the requested
offset, and no tasks. -/
theorem c10_list_tasks_empty_on_double_failure (w : DsWorld) (offset lim : Int) (a : Option String)
    (h2 : ∃ e, dsMakeRequest (w.listEnv "2") { total := none, offset := none, tasks := none } = .error e ∧
      dsFallbackHit e = true)
    (h1 : ∃ e, dsMakeRequest (w.listEnv "1") { total := none, offset := none, tasks := none } = .error e) :
    (listTasks w offset lim a).fst = .ok { total := 0, offset := offset, tasks := [] } := by
  obtain ⟨e, he, hf⟩ := h2
  obtain ⟨e1, he1⟩ := h1
  simp [listTasks, he, hf, he1]

/-- Witness for C10: both versions fail with code 102 on a concrete world
and `list_tasks` yields the empty result at the requested offset. -/
theorem c10_witness :
    (listTasks wDs102 5 (-1) none).fst = .ok { total := 0, offset := 5, tasks := [] } :=
  c10_list_tasks_empty_on_double_failure wDs102 5 (-1) none
    ⟨"Download Station API error 102: The requested API does not exist", rfl, by decide⟩
    ⟨"Download Station API error 102: The requested API does not exist", rfl⟩

/-- Updating a key makes lookup return the new value. -/
theorem alook_aset_self {β : Type} (k : String) (v : β) (l : List (String × β)) :
    alook (aset k v l) k = some v := by
  simp [aset, alook]

/-- After removal of a key, lookup of that key fails. -/
theorem alook_aremove_self {β : Type} (k : String) (l : List (String × β)) :
    alook (aremove k l) k = none := by
  induction l with
  | nil => rfl
  | cons p t ih =>
    by_cases h : p.1 = k
    · simp only [aremove, if_pos h]; exact ih
    · simp only [aremove, if_neg h, alook, if_neg h]; exact ih

/-- Removal eliminates every binding of the key. -/
theorem countP_aremove_zero {β : Type} (k : String) (l : List (String × β)) :
    (aremove k l).countP (fun q => q.1 == k) = 0 := by
  induction l with
  | nil => rfl
  | cons p t ih =>
    by_cases h : p.1 = k
    · simp only [aremove, if_pos h]; exact ih
    · simp only [aremove, if_neg h, List.countP_cons]
      simp [h, ih]

/-- A fresh update leaves exactly one binding of the key. -/
theorem countP_aset_one {β : Type} (k : String) (v : β) (l : List (String × β)) :
    (aset k v l).countP (fun q => q.1 == k) = 1 := by
  simp [aset, List.countP_cons, countP_aremove_zero]

/-- C4: a successful login for an endpoint stores the new token, leaves
exactly one session binding for that endpoint, discards every cached
FileStation and DownloadStation instance for it, and a subsequent
capability-module request constructs an instance carrying the new token. -/
theorem c4_login_replaces_session (w : AuthWorld) (st : ServerState) (url user pass sid : String)
    (h : w.login url user pass = { success := true, sid := some sid }) :
    (handleLogin w st url user pass).fst = .ok sid ∧
    alook (handleLogin w st url user pass).snd.sessions url = some sid ∧
    (handleLogin w st url user pass).snd.sessions.countP (fun q => q.1 == url) = 1 ∧
    alook (handleLogin w st url user pass).snd.fsInstances url = none ∧
    alook (handleLogin w st url user pass).snd.dsInstances url = none ∧
    getFilestation (handleLogin w st url user pass).snd url =
      .ok (mkFsInst url sid,
        { (handleLogin w st url user pass).snd with
            fsInstances := aset url (mkFsInst url sid) (handleLogin w st url user pass).snd.fsInstances }) ∧
    getDownloadstation (handleLogin w st url user pass).snd url =
      .ok (mkDsInst url sid,
        { (handleLogin w st url user pass).snd with
            dsInstances := aset url (mkDsInst url sid) (handleLogin w st url user pass).snd.dsInstances }) := by
  have hst : handleLogin w st url user pass =
      (.ok sid,
       { sessions := aset url sid st.sessions
         fsInstances := aremove url st.fsInstances
         dsInstances := aremove url st.dsInstances }) := by
    simp [handleLogin, h]
  rw [hst]
  refine ⟨rfl, alook_aset_self url sid st.sessions, countP_aset_one url sid st.sessions,
    alook_aremove_self url st.fsInstances, alook_aremove_self url st.dsInstances, ?_, ?_⟩
  · simp [getFilestation, alook_aset_self, alook_aremove_self]
  · simp [getDownloadstation, alook_aset_self, alook_aremove_self]

/-- Witness for C4: a concrete re-login over an endpoint that already holds
a session and cached instances. -/
theorem c4_witness :
    (handleLogin wAuthOk stOne "http://nas" "u" "p").fst = .ok "sid9" ∧
    alook (handleLogin wAuthOk stOne "http://nas" "u" "p").snd.sessions "http://nas" = some "sid9" ∧
    (handleLogin wAuthOk stOne "http://nas" "u" "p").snd.sessions.countP (fun q => q.1 == "http://nas") = 1 ∧
    alook (handleLogin wAuthOk stOne "http://nas" "u" "p").snd.fsInstances "http://nas" = none ∧
    alook (handleLogin wAuthOk stOne "http://nas" "u" "p").snd.dsInstances "http://nas" = none ∧
    getFilestation (handleLogin wAuthOk stOne "http://nas" "u" "p").snd "http://nas" =
      .ok (mkFsInst "http://nas" "sid9",
        { (handleLogin wAuthOk stOne "http://nas" "u" "p").snd with
            fsInstances := aset "http://nas" (mkFsInst "http://nas" "sid9")
              (handleLogin wAuthOk stOne "http://nas" "u" "p").snd.fsInstances }) ∧
    getDownloadstation (handleLogin wAuthOk stOne "http://nas" "u" "p").snd "http://nas" =
      .ok (mkDsInst "http://nas" "sid9",
        { (handleLogin wAuthOk stOne "http://nas" "u" "p").snd with
            dsInstances := aset "http://nas" (mkDsInst "http://nas" "sid9")
              (handleLogin wAuthOk stOne "http://nas" "u" "p").snd.dsInstances }) :=
  c4_login_replaces_session wAuthOk stOne "http://nas" "u" "p" "sid9" rfl

/-- C8, counterexample: with an active session, a remote logout failing with
the non-expiry code `400` leaves the stored session and the cached
FileStation instance in place and reports a failure — the removal is not
unconditional. -/
theorem c8_counterexample :
    (handleLogout wAuthFail stOne "http://nas").fst = .failed "400" ∧
    alook (handleLogout wAuthFail stOne "http://nas").snd.sessions "http://nas" = some "sidOld" ∧
    alook (handleLogout wAuthFail stOne "http://nas").snd.fsInstances "http://nas" =
      some (mkFsInst "http://nas" "sidOld") := by
  refine ⟨rfl, rfl, rfl⟩

/-- C8, amended: releasing a session removes the stored session and every
cached capability-module instance when the remote logout succeeds or fails
with a session-expiry-class code (the latter reported as an already-expired
successful cleanup, not a failure); any other remote error leaves the whole
state untouched and reports a failure. -/
theorem c8_logout_release (w : AuthWorld) (st : ServerState) (url sid : String)
    (h : alook st.sessions url = some sid) :
    ((w.logout url sid).success = true →
      (handleLogout w st url).fst = .loggedOut ∧
      alook (handleLogout w st url).snd.sessions url = none ∧
      alook (handleLogout w st url).snd.fsInstances url = none ∧
      alook (handleLogout w st url).snd.dsInstances url = none) ∧
    ((w.logout url sid).success = false →
      ∀ c, ((w.logout url sid).error.map LogoutErr.code).getD "unknown" = c →
        (c ∈ expiredCodes →
          (handleLogout w st url).fst = .alreadyExpired c ∧
          alook (handleLogout w st url).snd.sessions url = none ∧
          alook (handleLogout w st url).snd.fsInstances url = none ∧
          alook (handleLogout w st url).snd.dsInstances url = none) ∧
        (c ∉ expiredCodes →
          (handleLogout w st url).fst = .failed c ∧
          (handleLogout w st url).snd = st)) := by
  constructor
  · intro hs
    have hout : handleLogout w st url =
        (.loggedOut,
         { sessions := aremove url st.sessions
           fsInstances := aremove url st.fsInstances
           dsInstances := aremove url st.dsInstances }) := by
      simp [handleLogout, h, hs]
    rw [hout]
    exact ⟨rfl, alook_aremove_self url st.sessions, alook_aremove_self url st.fsInstances,
      alook_aremove_self url st.dsInstances⟩
  · intro hs c hc
    constructor
    · intro hmem
      have hout : handleLogout w st url =
          (.alreadyExpired c,
           { sessions := aremove url st.sessions
             fsInstances := aremove url st.fsInstances
             dsInstances := aremove url st.dsInstances }) := by
        simp [handleLogout, h, hs, hc, hmem]
      rw [hout]
      exact ⟨rfl, alook_aremove_self url st.sessions, alook_aremove_self url st.fsInstances,
        alook_aremove_self url st.dsInstances⟩
    · intro hmem
      have hout : handleLogout w st url = (.failed c, st) := by
        simp [handleLogout, h, hs, hc, hmem]
      rw [hout]
      exact ⟨rfl, rfl⟩

/-- Witness for C8: a concrete logout answering the expiry code `106`
removes the session and caches and is reported as an already-expired
cleanup. -/
theorem c8_witness :
    (handleLogout wAuthExp stOne "http://nas").fst = .alreadyExpired "106" ∧
    alook (handleLogout wAuthExp stOne "http://nas").snd.sessions "http://nas" = none ∧
    alook (handleLogout wAuthExp stOne "http://nas").snd.fsInstances "http://nas" = none ∧
    alook (handleLogout wAuthExp stOne "http://nas").snd.dsInstances "http://nas" = none :=
  ((c8_logout_release wAuthExp stOne "http://nas" "sidOld" rfl).2 rfl "106" rfl).1 (by decide)

/-- When no destination of the list exists, `firstExisting` probes every one
and finds none. -/
theorem firstExisting_none (w : DsWorld) (l : List String)
    (h : ∀ d ∈ l, checkDest w d = false) :
    firstExisting w l = (none, l.map (fun d => DsCall.fsCheck ("/" ++ d))) := by
  induction l with
  | nil => rfl
  | cons d t ih =>
    have hd : checkDest w d = false := h d (by simp)
    have ht := ih (fun x hx => h x (by simp [hx]))
    simp [firstExisting, hd, ht]

/-- Destination probes are never create requests. -/
theorem countP_create_fsCheck_map (L : List String) :
    (L.map (fun d => DsCall.fsCheck ("/" ++ d))).countP isCreateCall = 0 := by
  refine List.countP_eq_zero.mpr ?_
  intro a ha
  obtain ⟨d, _, rfl⟩ := List.mem_map.mp ha
  simp [isCreateCall]

/-- C6, amended: with no explicit destination, (a) when neither the
preferred default nor any common destination exists, `create_task` fails
before any create request with the no-suggestions destination-missing
message (the suggestion list is empty); (b) when the common folder `video`
exists (and no other common destination does), the default destination
resolves to `video` and the task is submitted there without any failure; a
suggestion list of exactly `["video"]` arises instead (c) for an explicitly
supplied missing destination when `video` is the only existing common
folder, again with no create request issued. -/
theorem c6_create_task_destination :
    (∀ (w : DsWorld) (pd uri : String) (user pass : Option String),
      (∀ d ∈ commonDestinations pd, checkDest w d = false) →
      (createTask w pd uri none user pass).fst =
        .error ("Destination folder " ++ quoted pd ++ " does not exist on the NAS." ++
          " Please create the " ++ quoted "downloads" ++ " folder first in File Station.") ∧
      (createTask w pd uri none user pass).snd.countP isCreateCall = 0 ∧
      (commonDestinations pd).filter (fun d => checkDest w d) = []) ∧
    (∀ (w : DsWorld) (pd uri : String) (user pass : Option String) (cd : CreateData),
      checkDest w "video" = true →
      (∀ d ∈ commonDestinations pd, d ≠ "video" → checkDest w d = false) →
      dsMakeRequest w.createEnvV2 { taskIds := [], listIds := [] } = .ok cd →
      (createTask w pd uri none user pass).fst = .ok cd ∧
      DsCall.taskCreate "2" "video" uri user pass ∈ (createTask w pd uri none user pass).snd) ∧
    (∀ (w : DsWorld) (pd uri dst : String) (user pass : Option String),
      dst ≠ "" →
      checkDest w dst = false →
      (commonDestinations pd).filter (fun d => checkDest w d) = ["video"] →
      (createTask w pd uri (some dst) user pass).fst =
        .error ("Destination folder " ++ quoted dst ++ " does not exist on the NAS." ++
          " Available folders: " ++ "video") ∧
      (createTask w pd uri (some dst) user pass).snd.countP isCreateCall = 0) := by
  refine ⟨?_, ?_, ?_⟩
  · intro w pd uri user pass h
    have hpd : checkDest w pd = false := h pd (by simp [commonDestinations])
    have hfe : firstExisting w ["video", "music", "software", "documents", "photos", "backup"] =
        (none, [DsCall.fsCheck "/video", DsCall.fsCheck "/music", DsCall.fsCheck "/software",
                DsCall.fsCheck "/documents", DsCall.fsCheck "/photos", DsCall.fsCheck "/backup"]) := by
      rw [firstExisting_none w _ (fun d hd => h d (List.mem_cons_of_mem pd hd))]
      rfl
    have hdef : getDefaultDestination w pd =
        (pd, [DsCall.fsCheck ("/" ++ pd), DsCall.fsCheck "/video", DsCall.fsCheck "/music",
              DsCall.fsCheck "/software", DsCall.fsCheck "/documents", DsCall.fsCheck "/photos",
              DsCall.fsCheck "/backup"]) := by
      simp [getDefaultDestination, commonDestinations, hpd, hfe]
    have hfil : (commonDestinations pd).filter (fun d => checkDest w d) = [] :=
      List.filter_eq_nil_iff.mpr (fun d hd => by simp [h d hd])
    refine ⟨?_, ?_, hfil⟩
    · simp [createTask, hdef, hpd, hfil, String.append_assoc]
      rfl
    · simp [createTask, hdef, hpd, hfil, commonDestinations, List.countP_cons,
        List.countP_append, isCreateCall]
  · intro w pd uri user pass cd hv hrest hcr
    by_cases hpd : pd = "video"
    · subst hpd
      have hdef : getDefaultDestination w "video" = ("video", [DsCall.fsCheck "/video"]) := by
        simp [getDefaultDestination, hv]
      refine ⟨?_, ?_⟩ <;> simp [createTask, hdef, hv, hcr]
    · have hpdf : checkDest w pd = false :=
        hrest pd (by simp [commonDestinations]) hpd
      have hdef : getDefaultDestination w pd =
          ("video", [DsCall.fsCheck ("/" ++ pd), DsCall.fsCheck "/video"]) := by
        simp [getDefaultDestination, commonDestinations, firstExisting, hpdf, hv]
      refine ⟨?_, ?_⟩ <;> simp [createTask, hdef, hv, hcr]
  · intro w pd uri dst user pass hdst hmiss hfil
    refine ⟨?_, ?_⟩
    · simp [createTask, hdst, hmiss, hfil, joinSep, String.append_assoc]
    · simp [createTask, hdst, hmiss, hfil, List.countP_cons, isCreateCall,
        countP_create_fsCheck_map]

/-- C6, counterexample: when exactly the common folder `video` exists and no
destination is given, `create_task` does not fail at all — the default
resolves to `video` and the create request is submitted there — so there is
no failure carrying the suggestion list `["video"]`. -/
theorem c6_counterexample :
    (createTask wDsVideo "downloads" "http://example.com/f" none none none).fst =
      .ok { taskIds := ["dbid_1"], listIds := [] } ∧
    (createTask wDsVideo "downloads" "http://example.com/f" none none none).snd =
      [DsCall.fsCheck "/downloads", DsCall.fsCheck "/video", DsCall.fsCheck "/video",
       DsCall.taskCreate "2" "video" "http://example.com/f" none none] := by
  refine ⟨rfl, rfl⟩

/-- Witness for C6: on a backend with no existing folder, creating a task
with no destination fails with the no-suggestions message and no create
request. -/
theorem c6_witness :
    (createTask wDsNone "downloads" "http://example.com/f" none none none).fst =
      .error ("Destination folder " ++ quoted "downloads" ++ " does not exist on the NAS." ++
        " Please create the " ++ quoted "downloads" ++ " folder first in File Station.") ∧
    (createTask wDsNone "downloads" "http://example.com/f" none none none).snd.countP isCreateCall = 0 ∧
    (commonDestinations "downloads").filter (fun d => checkDest wDsNone d) = [] :=
  c6_create_task_destination.1 wDsNone "downloads" "http://example.com/f" none none
    (fun _ _ => rfl)

/-- The delete polling loop never issues a `stop` request itself. -/
theorem deletePoll_no_stop (w : FsWorld) (tid : String) :
    ∀ (fuel i : Nat), ((deletePoll w tid i fuel).snd).countP isDeleteStopCall = 0
  | 0, _ => rfl
  | fuel + 1, i => by
    have ih := deletePoll_no_stop w tid fuel (i + 1)
    cases h : synoMakeRequest fsHead (w.deleteStatusEnv i) { finished := false, errorField := none } with
    | error e => simp [deletePoll, h, isDeleteStopCall]
    | ok st =>
      by_cases hf : st.finished
      · cases he : st.errorField <;> simp [deletePoll, h, hf, he, isDeleteStopCall]
      · cases hrec : deletePoll w tid (i + 1) fuel with
        | mk r t =>
          rw [hrec] at ih
          simp [deletePoll, h, hf, hrec, List.countP_cons, isDeleteStopCall, ih]

/-- The move polling loop never issues a `stop` request itself. -/
theorem movePoll_no_stop (w : FsWorld) (tid : String) :
    ∀ (fuel i : Nat), ((movePoll w tid i fuel).snd).countP isMoveStopCall = 0
  | 0, _ => rfl
  | fuel + 1, i => by
    have ih := movePoll_no_stop w tid fuel (i + 1)
    cases h : synoMakeRequest fsHead (w.moveStatusEnv i) { finished := false, errorField := none } with
    | error e => simp [movePoll, h, isMoveStopCall]
    | ok st =>
      by_cases hf : st.finished
      · cases he : st.errorField <;> simp [movePoll, h, hf, he, isMoveStopCall]
      · cases hrec : movePoll w tid (i + 1) fuel with
        | mk r t =>
          rw [hrec] at ih
          simp [movePoll, h, hf, hrec, List.countP_cons, isMoveStopCall, ih]

/-- The search polling loop never issues a `stop` request itself. -/
theorem searchPoll_no_stop (w : FsWorld) (tid : String) :
    ∀ (fuel i : Nat), ((searchPoll w tid i fuel).snd).countP isSearchStopCall = 0
  | 0, _ => rfl
  | fuel + 1, i => by
    have ih := searchPoll_no_stop w tid fuel (i + 1)
    cases h : synoMakeRequest fsHead (w.searchListEnv i) { finished := false, files := [] } with
    | error e => simp [searchPoll, h, isSearchStopCall]
    | ok d =>
      by_cases hf : d.finished
      · simp [searchPoll, h, hf, isSearchStopCall]
      · cases hrec : searchPoll w tid (i + 1) fuel with
        | mk r t =>
          rw [hrec] at ih
          simp [searchPoll, h, hf, hrec, List.countP_cons, isSearchStopCall, ih]

/-- The search polling loop ignores the stop-response oracle. -/
theorem searchPoll_stop_env (w : FsWorld) (e : Envelope Unit) (tid : String) :
    ∀ (fuel i : Nat), searchPoll { w with searchStopEnv := e } tid i fuel = searchPoll w tid i fuel
  | 0, _ => rfl
  | fuel + 1, i => by
    have ih := searchPoll_stop_env w e tid fuel (i + 1)
    cases h : synoMakeRequest fsHead (w.searchListEnv i) { finished := false, files := [] } with
    | error e0 => simp [searchPoll, h]
    | ok d =>
      by_cases hf : d.finished
      · simp [searchPoll, h, hf]
      · simp [searchPoll, h, hf, ih]

/-- The primary outcome of `search_files` never depends on the response to
the `stop` attempt. -/
theorem searchFiles_stop_env (w : FsWorld) (e : Envelope Unit) (fuel : Nat) (p pat : String) :
    (searchFiles { w with searchStopEnv := e } fuel p pat).fst = (searchFiles w fuel p pat).fst := by
  cases hstart : synoMakeRequest fsHead (w.searchStartEnv (formatPath w.nfc p) pat) { taskid := none } with
  | error e0 => simp [searchFiles, hstart]
  | ok sd =>
    by_cases h0 : sd.taskid.getD "" = ""
    · simp [searchFiles, hstart, h0]
    · cases hpoll : searchPoll w (sd.taskid.getD "") 0 fuel with
      | mk ro t =>
        have hsp := searchPoll_stop_env w e (sd.taskid.getD "") fuel 0
        cases ro <;> simp [searchFiles, hstart, h0, hsp, hpoll]

/-- C1, counterexample: a delete whose task finishes on the first status
poll exits successfully with zero `stop` attempts in its request trace, so
the stop attempt is not made on every exit path. -/
theorem c1_counterexample :
    (∃ r, (fsDelete wDeleteOk "/tmp/f").fst = .ok r) ∧
    (fsDelete wDeleteOk "/tmp/f").snd =
      [FsCall.getinfo "/tmp/f", FsCall.deleteStart "/tmp/f", FsCall.deleteStatus "t1"] ∧
    (fsDelete wDeleteOk "/tmp/f").snd.countP isDeleteStopCall = 0 :=
  ⟨⟨_, rfl⟩, rfl, rfl⟩

/-- C1, amended: once a task id is obtained, `delete` and `move_file` issue
exactly one `stop` attempt on every raising exit (status-poll failure,
reported task error, timeout) and none on the success exit, while
`search_files` issues exactly one `stop` attempt on every exit; in all three
the response of the stop attempt never influences the primary outcome. -/
theorem c1_amended_stop_discipline :
    (∀ (w : FsWorld) (p : String) (sd : TaskData),
      ¬(formatPath w.nfc p = "" ∨ formatPath w.nfc p = "/") →
      criticalHit (formatPath w.nfc p) = false →
      synoMakeRequest fsHead (w.deleteStartEnv (formatPath w.nfc p)) { taskid := none } = .ok sd →
      sd.taskid.getD "" ≠ "" →
      ((fsDelete w p).snd.countP isDeleteStopCall =
        (match (fsDelete w p).fst with | .ok _ => 0 | .error _ => 1)) ∧
      (∀ e, (fsDelete { w with deleteStopEnv := e } p).fst = (fsDelete w p).fst)) ∧
    (∀ (w : FsWorld) (src dst : String) (sd : TaskData),
      ¬(formatPath w.nfc src = "" ∨ formatPath w.nfc src = "/") →
      ¬(formatPath w.nfc dst = "" ∨ formatPath w.nfc dst = "/") →
      synoMakeRequest fsHead (w.moveStartEnv (formatPath w.nfc src) (formatPath w.nfc dst))
        { taskid := none } = .ok sd →
      sd.taskid.getD "" ≠ "" →
      ((moveFile w src dst).snd.countP isMoveStopCall =
        (match (moveFile w src dst).fst with | .ok _ => 0 | .error _ => 1)) ∧
      (∀ e, (moveFile { w with moveStopEnv := e } src dst).fst = (moveFile w src dst).fst)) ∧
    (∀ (w : FsWorld) (fuel : Nat) (p pat : String) (sd : TaskData),
      synoMakeRequest fsHead (w.searchStartEnv (formatPath w.nfc p) pat) { taskid := none } = .ok sd →
      sd.taskid.getD "" ≠ "" →
      (∀ r, (searchFiles w fuel p pat).fst = some r →
        (searchFiles w fuel p pat).snd.countP isSearchStopCall = 1) ∧
      (∀ e, (searchFiles { w with searchStopEnv := e } fuel p pat).fst =
        (searchFiles w fuel p pat).fst)) := by
  refine ⟨?_, ?_, ?_⟩
  · intro w p sd hv hc hs ht
    refine ⟨?_, fun e => rfl⟩
    have hns := deletePoll_no_stop w (sd.taskid.getD "") 240 0
    cases hpoll : deletePoll w (sd.taskid.getD "") 0 240 with
    | mk r t =>
      rw [hpoll] at hns
      cases r with
      | ok u =>
        simp [fsDelete, hv, hc, hs, ht, hpoll, List.countP_append, List.countP_cons,
          isDeleteStopCall, hns]
      | error e =>
        simp [fsDelete, hv, hc, hs, ht, hpoll, List.countP_append, List.countP_cons,
          isDeleteStopCall, hns]
  · intro w src dst sd hv1 hv2 hs ht
    refine ⟨?_, fun e => rfl⟩
    have hns := movePoll_no_stop w (sd.taskid.getD "") 120 0
    cases hpoll : movePoll w (sd.taskid.getD "") 0 120 with
    | mk r t =>
      rw [hpoll] at hns
      cases r with
      | ok u =>
        simp [moveFile, hv1, hv2, hs, ht, hpoll, List.countP_append, List.countP_cons,
          isMoveStopCall, hns]
      | error e =>
        simp [moveFile, hv1, hv2, hs, ht, hpoll, List.countP_append, List.countP_cons,
          isMoveStopCall, hns]
  · intro w fuel p pat sd hs ht
    refine ⟨?_, fun e => searchFiles_stop_env w e fuel p pat⟩
    intro r hr
    have hns := searchPoll_no_stop w (sd.taskid.getD "") fuel 0
    cases hpoll : searchPoll w (sd.taskid.getD "") 0 fuel with
    | mk ro t =>
      rw [hpoll] at hns
      cases ro with
      | none => simp [searchFiles, hs, ht, hpoll] at hr
      | some r0 =>
        simp [searchFiles, hs, ht, hpoll, List.countP_append, List.countP_cons,
          isSearchStopCall, hns]

/-- Witness for C1 (amended): the delete clause applied to a concrete world
whose task finishes on the first poll. -/
theorem c1_witness :
    (fsDelete wDeleteOk "/tmp/f").snd.countP isDeleteStopCall =
      (match (fsDelete wDeleteOk "/tmp/f").fst with | .ok _ => 0 | .error _ => 1) ∧
    (∀ e, (fsDelete { wDeleteOk with deleteStopEnv := e } "/tmp/f").fst =
      (fsDelete wDeleteOk "/tmp/f").fst) :=
  c1_amended_stop_discipline.1 wDeleteOk "/tmp/f" { taskid := some "t1" }
    (by decide) (by decide) rfl (by decide)

/-- The head of a `dropWhile` residue falsifies the predicate. -/
theorem head_dropWhile_false (q : Char → Bool) :
    ∀ (l : List Char) (a : Char), (l.dropWhile q).head? = some a → q a = false
  | [], a, h => by simp [List.dropWhile] at h
  | b :: t, a, h => by
    by_cases hb : q b
    · exact head_dropWhile_false q t a (by simpa [List.dropWhile, hb] using h)
    · simp [List.dropWhile, hb] at h
      subst h
      exact Bool.eq_false_iff.mpr hb

/-- A trailing-slash strip keeps every non-slash character. -/
theorem mem_dropTrailing (l : List Char) (c : Char) (hc : c ∈ l) (hne : c ≠ '/') :
    c ∈ dropTrailingSlashList l := by
  have hsplit := List.takeWhile_append_dropWhile (fun x => x == '/') l.reverse
  have hrev : c ∈ l.reverse := List.mem_reverse.mpr hc
  rw [← hsplit] at hrev
  rcases List.mem_append.mp hrev with h | h
  · exact absurd (by simpa using List.mem_takeWhile_imp h) hne
  · exact List.mem_reverse.mpr h

/-- A nonempty trailing-slash strip keeps the first character. -/
theorem head_dropTrailing (l : List Char) (h : dropTrailingSlashList l ≠ []) :
    (dropTrailingSlashList l).head? = l.head? := by
  set m := l.reverse.dropWhile (fun c => c == '/') with hm
  have hmne : m ≠ [] := by
    intro hnil
    exact h (by simp [dropTrailingSlashList, ← hm, hnil])
  obtain ⟨k, hk⟩ := List.dropWhile_suffix (l := l.reverse) (fun c => c == '/')
  calc (dropTrailingSlashList l).head? = m.reverse.head? := by
        simp [dropTrailingSlashList, ← hm]
    _ = m.getLast? := List.head?_reverse m
    _ = (k ++ m).getLast? := (List.getLast?_append_of_ne_nil k hmne).symm
    _ = l.reverse.getLast? := by rw [hk]
    _ = l.head? := List.getLast?_reverse l

/-- The last character of a trailing-slash strip is never a slash. -/
theorem getLast_dropTrailing_ne_slash (l : List Char) (b : Char)
    (hb : (dropTrailingSlashList l).getLast? = some b) : b ≠ '/' := by
  have hh : (l.reverse.dropWhile (fun c => c == '/')).head? = some b := by
    rw [← List.getLast?_reverse]
    exact hb
  have := head_dropWhile_false (fun c => c == '/') l.reverse b hh
  simpa using this

/-- Core of the idempotence argument: a string fixed in shape (leading
slash, and no trailing slash unless it is the root) is a fixpoint of
`_format_path` after one more normalization. -/
theorem formatPath_nfc_fix (nfc : String → String)
    (h1 : ∀ s, nfc (nfc s) = nfc s)
    (h2 : ∀ s, startsSlash s = true → startsSlash (nfc s) = true)
    (h3 : ∀ s, endsSlash (nfc s) = true → endsSlash s = true)
    (h4 : nfc "/" = "/")
    (s : String) (hs : startsSlash s = true) (hcase : s = "/" ∨ endsSlash s = false) :
    formatPath nfc (nfc s) = nfc s := by
  rcases hcase with rfl | hcase
  · rw [h4]
    simp +decide [formatPath, h4]
  · have hstart : startsSlash (nfc s) = true := h2 s hs
    have hend : endsSlash (nfc s) = false := by
      cases hq : endsSlash (nfc s) with
      | false => rfl
      | true => exact absurd (h3 s hq) (by simp [hcase])
    simp [formatPath, hstart, hend, h1 s]

/-- Shape facts about the second canonicalization step: starting from a
character list with a leading slash and some non-slash character, the
trailing-slash adjustment yields a string that starts with a slash and does
not end with one. -/
theorem step2_facts (l1 : List Char) (hhead : l1.head? = some '/')
    (c : Char) (hcm : c ∈ l1) (hcne : c ≠ '/') :
    startsSlash (if String.mk l1 ≠ "/" ∧ endsSlash (String.mk l1) then
      rstripSlash (String.mk l1) else String.mk l1) = true ∧
    endsSlash (if String.mk l1 ≠ "/" ∧ endsSlash (String.mk l1) then
      rstripSlash (String.mk l1) else String.mk l1) = false := by
  have hne : String.mk l1 ≠ "/" := by
    intro h
    have hl : l1 = ['/'] := congrArg String.data h
    rw [hl] at hcm
    exact hcne (List.mem_singleton.mp hcm)
  by_cases he : endsSlash (String.mk l1)
  · rw [if_pos ⟨hne, he⟩]
    have hcm2 : c ∈ dropTrailingSlashList l1 := mem_dropTrailing l1 c hcm hcne
    have hnn : dropTrailingSlashList l1 ≠ [] := List.ne_nil_of_mem hcm2
    constructor
    · show ((dropTrailingSlashList l1).head? == some '/') = true
      rw [head_dropTrailing l1 hnn, hhead]
      rfl
    · cases hb : (dropTrailingSlashList l1).getLast? with
      | none => simp [endsSlash, rstripSlash, hb]
      | some b =>
        have hbne := getLast_dropTrailing_ne_slash l1 b hb
        simp [endsSlash, rstripSlash, hb, hbne]
  · rw [if_neg (by simp [he])]
    exact ⟨by simp [startsSlash, hhead], by simpa using he⟩

/-- C7, counterexample: canonicalization is not idempotent on the all-slash
path `"//"`, which canonicalizes to the empty string while a second pass
turns the empty string into `"/"`. -/
theorem c7_counterexample :
    formatPath nfcAscii "//" = "" ∧
    formatPath nfcAscii (formatPath nfcAscii "//") = "/" ∧
    formatPath nfcAscii (formatPath nfcAscii "//") ≠ formatPath nfcAscii "//" := by
  refine ⟨by decide, by decide, by decide⟩

/-- C7, amended: under the NFC facts (idempotence, leading-slash
preservation, no introduced trailing slash, the root as a fixpoint),
`_format_path` is idempotent on every path that is empty, the root, or
contains a non-slash character — every path except those consisting solely
of two or more slashes, on which the counterexample shows idempotence
fails; `"relative/path/"` canonicalizes to `"/relative/path"` and `"/"` is
unchanged. -/
theorem c7_format_path_idempotent (nfc : String → String)
    (h1 : ∀ s, nfc (nfc s) = nfc s)
    (h2 : ∀ s, startsSlash s = true → startsSlash (nfc s) = true)
    (h3 : ∀ s, endsSlash (nfc s) = true → endsSlash s = true)
    (h4 : nfc "/" = "/")
    (p : String) (hp : p.data = [] ∨ p.data = ['/'] ∨ ∃ c ∈ p.data, c ≠ '/') :
    formatPath nfc (formatPath nfc p) = formatPath nfc p ∧
    formatPath nfcAscii "relative/path/" = "/relative/path" ∧
    formatPath nfcAscii "/" = "/" := by
  refine ⟨?_, by decide, by decide⟩
  rcases hp with hp | hp | ⟨c, hcmem, hcne⟩
  · have hps : p = "" := String.ext hp
    subst hps
    have hF : formatPath nfc "" = "/" := by simp +decide [formatPath, h4]
    rw [hF]
    simp +decide [formatPath, h4]
  · have hps : p = "/" := String.ext hp
    subst hps
    have hF : formatPath nfc "/" = "/" := by simp +decide [formatPath, h4]
    rw [hF]
    exact hF
  · by_cases hs : startsSlash p
    · have hhead : p.data.head? = some '/' := by simpa [startsSlash] using hs
      obtain ⟨hsS, hsE⟩ := step2_facts p.data hhead c hcmem hcne
      have hFp : formatPath nfc p = nfc (if p ≠ "/" ∧ endsSlash p then rstripSlash p else p) := by
        simp [formatPath, hs]
      rw [hFp]
      exact formatPath_nfc_fix nfc h1 h2 h3 h4 _ hsS (Or.inr hsE)
    · have hhead : ('/' :: p.data).head? = some '/' := rfl
      have hcm2 : c ∈ '/' :: p.data := List.mem_cons_of_mem _ hcmem
      obtain ⟨hsS, hsE⟩ := step2_facts ('/' :: p.data) hhead c hcm2 hcne
      have hFp : formatPath nfc p =
          nfc (if String.mk ('/' :: p.data) ≠ "/" ∧ endsSlash (String.mk ('/' :: p.data)) then
            rstripSlash (String.mk ('/' :: p.data)) else String.mk ('/' :: p.data)) := by
        simp [formatPath, hs]
      rw [hFp]
      exact formatPath_nfc_fix nfc h1 h2 h3 h4 _ hsS (Or.inr hsE)

/-- Witness for C7: the theorem applied to `nfcAscii` and the path
`"relative/path/"`, whose character list contains the non-slash `'r'`. -/
theorem c7_witness :
    formatPath nfcAscii (formatPath nfcAscii "relative/path/") = formatPath nfcAscii "relative/path/" ∧
    formatPath nfcAscii "relative/path/" = "/relative/path" ∧
    formatPath nfcAscii "/" = "/" :=
  c7_format_path_idempotent nfcAscii (fun _ => rfl) (fun _ h => h) (fun _ h => h) rfl
    "relative/path/" (Or.inr (Or.inr ⟨'r', by decide, by decide⟩))

/-- Witness for C2 (amended): the unconditional-delete theorem evaluated on
the concrete mapped-LUN backend. -/
theorem c2_witness :
    (deleteLun wMappedLun "u2").snd = [IscsiCall.lunDelete "u2"] ∧
    ((∃ r, (deleteLun wMappedLun "u2").fst = .ok r) ↔ (wMappedLun.deleteEnv "u2").success = true) :=
  c2_delete_lun_unconditional wMappedLun "u2"
